import Mathlib

/-!
Verification development for the purplebird turnstile client package.

The development shallowly embeds the two server-side functions of
netlify/verify-turnstile.js (the verifier `verifyTurnstile` and the token
extractor `getTurnstileToken`) and the client-side timer lifecycle of
src/turnstile-client.ts (`setupAutoRefresh`, `setupReset`, `cleanup`).

Modelling conventions:
* JavaScript strings are Lean `String`; the only falsy string is the empty
  string, and `null`/`undefined` string-valued slots are `Option String`
  with `none` falsy.
* JavaScript objects used as string maps are association lists
  `List (String × String)`; property access is lookup of the first pair
  with the exact key, absent keys being `none` (undefined).
* External platform and library calls (Buffer base64 decoding, busboy
  multipart parsing, URLSearchParams, JSON.parse) are out of scope of the
  repository and are passed in as an explicit bundle of oracle functions
  (`World`); `Buffer.from(s, 'utf8')` is modelled exactly with `String.toUTF8`.
* A thrown exception / rejected promise is `Except.error`.
* The browser timer machinery is modelled as a small-step machine: the
  session closure state plus the set of active timers, driven by events
  (a timer firing, the page load event, the user calling teardown, the
  turnstile script becoming available, the widget id attribute being set).
-/

/-- Truthiness of a JavaScript string-or-undefined value: `undefined`,
`null` and the empty string are falsy, every other string is truthy. -/
def truthy : Option String → Bool
  | none => false
  | some s => s != ""

/-- The JavaScript expression `a || b` for string-or-undefined values:
the first operand when truthy, otherwise the second operand. -/
def jsTruthyOr (a b : Option String) : Option String :=
  if truthy a then a else b

/-- Property read `obj[k]` on a JavaScript object modelled as an
association list: the value of the first pair with exactly key `k`,
`none` (undefined) when absent. -/
def jsLookup (hs : List (String × String)) (k : String) : Option String :=
  (hs.find? (fun p => p.1 == k)).map (fun p => p.2)

/-- The JavaScript expression `a || b || ''` producing a plain string. -/
def jsStrOrEmpty (a b : Option String) : String :=
  if truthy a then a.getD ("") else if truthy b then b.getD ("") else ""

/-- Whether the character list `pat` is a prefix of `l` (helper for the
JavaScript `String.prototype.includes` test). -/
def listStartsWith : List Char → List Char → Bool
  | [], _ => true
  | _ :: _, [] => false
  | p :: ps, c :: cs => p == c && listStartsWith ps cs

/-- Whether the character list `pat` occurs contiguously inside `l`. -/
def listIncl (pat : List Char) : List Char → Bool
  | [] => listStartsWith pat []
  | c :: cs => listStartsWith pat (c :: cs) || listIncl pat cs

/-- The JavaScript test `s.includes(pat)`. -/
def strIncludes (s pat : String) : Bool :=
  listIncl pat.toList s.toList

/-! ## Verifier: netlify/verify-turnstile.js, `verifyTurnstile` -/

/-- The `{ success: boolean, error?: string }` result object; an absent
`error` key is `none`. -/
structure VerificationResult where
  success : Bool
  error : Option String
deriving DecidableEq

/-- Outcome of the single outbound `fetch` of `verifyTurnstile`, as seen
by the code: the fetch itself may throw, the response may have a non-ok
HTTP status, `response.json()` may throw, or the body parses to an object
whose `success` field is truthy or falsy. -/
inductive RemoteOutcome where
  | fetchError
  | httpError (status : Nat)
  | jsonError
  | parsed (success : Bool)
deriving DecidableEq

/-- Observable behaviour of one `verifyTurnstile` call: the returned
result object, and the outbound request body (as its ordered list of
URL-encoded form fields) when a request was issued, `none` when the
function returned before issuing one. -/
structure VerifyRun where
  result : VerificationResult
  request : Option (List (String × String))
deriving DecidableEq

/-- The `URLSearchParams` form body built by `verifyTurnstile`:
`secret` and `response` always, then `remoteip` appended only when the
`remoteIp` argument is truthy (`if (remoteIp)`). -/
def buildVerifyBody (token secretKey : String) (remoteIp : Option String) :
    List (String × String) :=
  [("secret", secretKey), ("response", token)] ++
    (match remoteIp with
     | some ip => if ip = "" then [] else [("remoteip", ip)]
     | none => [])

/-- Whether the form body contains a field named `k`. -/
def hasKey (l : List (String × String)) (k : String) : Bool :=
  l.any (fun p => p.1 == k)

/-- Shallow embedding of `verifyTurnstile(token, secretKey, remoteIp)`.
The two falsy-argument checks happen in source order before any request;
afterwards the result is a pure function of the remote outcome.  The
function is total, mirroring that the source catches every exception of
the try block and never throws. -/
def verifyTurnstile (token secretKey : String) (remoteIp : Option String)
    (remote : RemoteOutcome) : VerifyRun :=
  if secretKey = "" then
    { result := { success := false,
                  error := some ("Turnstile verification is not configured") },
      request := none }
  else if token = "" then
    { result := { success := false,
                  error := some ("Turnstile token is missing") },
      request := none }
  else
    let body := buildVerifyBody token secretKey remoteIp
    match remote with
    | .fetchError =>
        { result := { success := false,
                      error := some ("Security verification error. Please try again.") },
          request := some body }
    | .httpError _ =>
        { result := { success := false,
                      error := some ("Security verification failed. Please try again.") },
          request := some body }
    | .jsonError =>
        { result := { success := false,
                      error := some ("Security verification error. Please try again.") },
          request := some body }
    | .parsed ok =>
        if ok then
          { result := { success := true, error := none }, request := some body }
        else
          { result := { success := false,
                        error := some ("Security verification failed. Please try again.") },
            request := some body }

/-! ## Token extractor: netlify/get-turnstile-token.js -/

/-- A Netlify handler event as consumed by `getTurnstileToken`: an
optional headers object (absent modelling `event.headers === undefined`),
an optional raw body string, and the base64 transport flag. -/
structure Event where
  headers : Option (List (String × String))
  body : Option String
  isBase64Encoded : Bool

/-- Convenience constructor for an event whose headers object is present. -/
def mkEvent (hs : List (String × String)) (body : Option String)
    (flag : Bool) : Event :=
  { headers := some hs, body := body, isBase64Encoded := flag }

/-- The ways `getTurnstileToken` can reject: the TypeError raised by
reading a property of an undefined headers object, and a busboy parse
error propagated out of `parseMultipart`. -/
inductive JsErr where
  | typeError
  | multipartReject
deriving DecidableEq

/-- Oracle bundle for the external platform facilities used by the
extractor: base64 decoding to bytes and to text (Buffer), the busboy
multipart field stream (in emission order, `Except.error` for a parse
error), `new URLSearchParams(body).get(key)`, and `JSON.parse`
restricted to string-valued fields of the resulting object. -/
structure World where
  b64Bytes : String → List UInt8
  b64Text : String → String
  multipartFields : List UInt8 → Except Unit (List (String × String))
  urlGet : String → String → Option String
  jsonParse : String → Except Unit (List (String × String))

/-- Embedding of `getBodyBuffer(event)`: empty buffer for a missing or
empty body, base64 decoding when flagged, UTF-8 bytes otherwise. -/
def getBodyBuffer (w : World) (e : Event) : List UInt8 :=
  match e.body with
  | none => []
  | some b =>
      if b = "" then []
      else if e.isBase64Encoded then w.b64Bytes b
      else b.toUTF8.toList

/-- Embedding of `getTextBody(event)`: empty string for a missing or
empty body, base64-to-UTF-8 decoding when flagged, the body otherwise. -/
def getTextBody (w : World) (e : Event) : String :=
  match e.body with
  | none => ""
  | some b =>
      if b = "" then ""
      else if e.isBase64Encoded then w.b64Text b
      else b

/-- The `bb.on('field', ...)` accumulation of `parseMultipart`: each
field named `cf-turnstile-response` overwrites `token`, so the result is
the value of the last such field, `none` when there is none. -/
def lastField (fields : List (String × String)) (name : String) :
    Option String :=
  fields.foldl (fun acc f => if f.1 == name then some f.2 else acc) none

/-- Shallow embedding of `getTurnstileToken(event)`.  Faithful details:
the header short-circuit reads the defaulted `event.headers || {}`
object, but the content-type line reads `event.headers` directly, so an
absent headers object throws a TypeError there; the multipart branch
propagates a busboy error as a rejection; the JSON branch swallows a
parse error into `null` and applies the truthiness chain
`payload['cf-turnstile-response'] || payload.cfTurnstileResponse || null`. -/
def getTurnstileToken (w : World) (e : Event) : Except JsErr (Option String) :=
  let hs0 := e.headers.getD []
  let headerToken :=
    jsTruthyOr (jsLookup hs0 ("x-turnstile-token"))
      (jsLookup hs0 ("X-Turnstile-Token"))
  if truthy headerToken then .ok headerToken
  else
    match e.headers with
    | none => .error .typeError
    | some hs =>
      let ct := jsStrOrEmpty (jsLookup hs ("content-type"))
        (jsLookup hs ("Content-Type"))
      if strIncludes ct ("multipart/form-data") then
        match w.multipartFields (getBodyBuffer w e) with
        | .error _ => .error .multipartReject
        | .ok fields => .ok (lastField fields ("cf-turnstile-response"))
      else if strIncludes ct ("application/x-www-form-urlencoded") then
        .ok (w.urlGet (getTextBody w e) ("cf-turnstile-response"))
      else if strIncludes ct ("application/json") then
        match w.jsonParse (getTextBody w e) with
        | .error _ => .ok none
        | .ok payload =>
            .ok (jsTruthyOr (jsLookup payload ("cf-turnstile-response"))
              (jsTruthyOr (jsLookup payload ("cfTurnstileResponse")) none))
      else .ok none

/-- Headers list with every `x-turnstile-token`-naming pair removed, in
either of the two casings the code checks; used to state that a falsy
token header behaves as if the header were absent. -/
def stripTokenHeaders : List (String × String) → List (String × String)
  | [] => []
  | p :: rest =>
      if p.1 = "x-turnstile-token" ∨ p.1 = "X-Turnstile-Token" then
        stripTokenHeaders rest
      else p :: stripTokenHeaders rest

/-- ASCII lowercasing of one character (used only to state what a
header name looks like up to case). -/
def asciiLower (c : Char) : Char :=
  if 65 ≤ c.toNat ∧ c.toNat ≤ 90 then Char.ofNat (c.toNat + 32) else c

/-- ASCII lowercasing of a string. -/
def lowerAscii (s : String) : String :=
  String.mk (s.toList.map asciiLower)

/-- A degenerate external world: every oracle yields nothing.  Used for
inputs whose extraction path never consults the oracles. -/
def worldTrivial : World :=
  { b64Bytes := fun _ => []
    b64Text := fun _ => ""
    multipartFields := fun _ => .error ()
    urlGet := fun _ _ => none
    jsonParse := fun _ => .error () }

/-! ## Refresh controller: src/turnstile-client.ts, `setupAutoRefresh`

The browser side is modelled as a small-step machine.  A machine state
carries the environment (whether `window.turnstile` is available, the
current `data-widget-id` attribute of the widget, whether the page load
event is still pending), the set of active timers with fresh numeric
handles, and the closure variables of one `setupAutoRefresh` call
(`turnstileResetInterval`, `checkWidgetInterval`, `isCleanedUp`, plus the
`checkScript` handle local to the script-wait branch).  Events are: an
active timer firing, the page load event, the user invoking the returned
teardown function, the turnstile script becoming available, and the
vendor script assigning the widget id attribute.  Timers fire only while
active (a cleared timer does not fire), matching the cooperative
single-threaded timer model; quantitative durations are irrelevant to
the claims and are documented next to each exhibited trace. -/

/-- The timer callbacks created by `setupAutoRefresh`:
the `checkScript` interval and its 5000 ms stopper, the
`setTimeout(setupReset, 500)` scheduled by the load handler, the
`checkWidgetInterval` poll and its 10000 ms stopper, and the recurring
reset interval (carrying the widget id it captured). -/
inductive Act where
  | scriptPoll
  | scriptPollStop
  | delayedSetup
  | widgetPoll
  | widgetPollStop
  | resetTick (wid : String)
deriving DecidableEq, BEq

/-- An active timer: its handle, whether it is an interval (recurring)
or a one-shot timeout, and its callback. -/
structure Timer where
  id : Nat
  recurring : Bool
  act : Act
deriving DecidableEq, BEq

/-- State of one auto-refresh session together with its environment. -/
structure MState where
  avail : Bool
  widgetAttr : Option String
  loadPending : Bool
  loadListener : Bool
  checkScriptId : Option Nat
  timers : List Timer
  nextId : Nat
  resetIv : Option Nat
  checkIv : Option Nat
  cleanedUp : Bool
  resetCount : Nat
deriving DecidableEq

/-- Register a new timer (`setInterval` when `recurring`, `setTimeout`
otherwise), returning the new state and the fresh handle. -/
def addTimer (s : MState) (recurring : Bool) (a : Act) : MState × Nat :=
  ({ s with
      timers := s.timers ++ [{ id := s.nextId, recurring := recurring, act := a }]
      nextId := s.nextId + 1 },
    s.nextId)

/-- The effect of `clearInterval(i)` / `clearTimeout(i)`: the timer with
handle `i` stops being active (a no-op when it is not active). -/
def clearTimer (s : MState) (i : Nat) : MState :=
  { s with timers := s.timers.filter (fun t => t.id != i) }

/-- The statement pattern
`if (turnstileResetInterval !== null) { clearInterval(...); ... = null }`
of `cleanup`. -/
def clearResetIv (s : MState) : MState :=
  match s.resetIv with
  | some i => { clearTimer s i with resetIv := none }
  | none => s

/-- The statement pattern
`if (checkWidgetInterval !== null) { clearInterval(...); ... = null }`
appearing in `cleanup`, in the widget-poll callback and in the 10000 ms
stopper. -/
def clearCheckIv (s : MState) : MState :=
  match s.checkIv with
  | some i => { clearTimer s i with checkIv := none }
  | none => s

/-- Embedding of the `cleanup` closure returned by `setupAutoRefresh`:
an early return when already cleaned up, otherwise set the flag and
clear the two tracked interval handles.  Note it touches neither the
`checkScript` interval nor the load listener. -/
def cleanup (s : MState) : MState :=
  if s.cleanedUp then s
  else clearCheckIv (clearResetIv { s with cleanedUp := true })

/-- Embedding of `setupReset`: a no-op unless `window.turnstile` is
available (the widget element itself is taken as present throughout);
otherwise start the widget-id poll interval — overwriting
`checkWidgetInterval` without clearing a previous poll — and schedule
its 10000 ms stopper.  It does not consult `isCleanedUp`. -/
def setupReset (s : MState) : MState :=
  if s.avail then
    let p := addTimer s true .widgetPoll
    (addTimer { p.1 with checkIv := some p.2 } false .widgetPollStop).1
  else s

/-- Embedding of the body of `setupAutoRefresh` (after the option
defaults): when the script is already available run `setupReset` at
once; otherwise register the load listener, start the `checkScript`
interval and schedule its 5000 ms stopper.  `loadWillFire` records
whether the page load event is still to come. -/
def setup (availAtStart loadWillFire : Bool) : MState :=
  let s0 : MState :=
    { avail := availAtStart, widgetAttr := none, loadPending := loadWillFire,
      loadListener := false, checkScriptId := none, timers := [], nextId := 0,
      resetIv := none, checkIv := none, cleanedUp := false, resetCount := 0 }
  if availAtStart then setupReset s0
  else
    let p := addTimer { s0 with loadListener := true } true .scriptPoll
    (addTimer { p.1 with checkScriptId := some p.2 } false .scriptPollStop).1

/-- The body of each timer callback, run when the timer fires. -/
def fireAct (s : MState) (a : Act) : MState :=
  match a with
  | .scriptPoll =>
      if s.avail then
        let s1 := match s.checkScriptId with
          | some i => clearTimer s i
          | none => s
        setupReset s1
      else s
  | .scriptPollStop =>
      match s.checkScriptId with
      | some i => clearTimer s i
      | none => s
  | .delayedSetup => setupReset s
  | .widgetPoll =>
      match s.widgetAttr with
      | some wid =>
          if wid = "" then s
          else
            let p := addTimer (clearCheckIv s) true (.resetTick wid)
            { p.1 with resetIv := some p.2 }
      | none => s
  | .widgetPollStop => clearCheckIv s
  | .resetTick _ => { s with resetCount := s.resetCount + 1 }

/-- Fire the active timer with handle `i` (no effect when no such timer
is active): a one-shot timeout is consumed first, an interval stays
active, then its callback body runs. -/
def fire (s : MState) (i : Nat) : MState :=
  match s.timers.find? (fun t => t.id == i) with
  | none => s
  | some t => fireAct (if t.recurring then s else clearTimer s i) t.act

/-- Events driving a session. -/
inductive Ev where
  | fire (i : Nat)
  | load
  | teardown
  | turnstileLoads
  | widgetIdSet (wid : String)
deriving DecidableEq

/-- One event step. The load event is consumed once; if the session
registered the load listener, the handler schedules
`setTimeout(setupReset, 500)`. -/
def step (s : MState) : Ev → MState
  | .fire i => fire s i
  | .load =>
      if s.loadPending then
        let s1 := { s with loadPending := false }
        if s1.loadListener then (addTimer s1 false .delayedSetup).1 else s1
      else s
  | .teardown => cleanup s
  | .turnstileLoads => { s with avail := true }
  | .widgetIdSet wid => { s with widgetAttr := some wid }

/-- Run a sequence of events from a state. -/
def run (s : MState) (evs : List Ev) : MState :=
  evs.foldl step s

/-- Number of active initialization-poll (widget-id check) intervals. -/
def countWidgetPolls (s : MState) : Nat :=
  (s.timers.filter (fun t => t.act == Act.widgetPoll)).length

/-- Recognizer for reset-interval callbacks. -/
def isResetAct : Act → Bool
  | .resetTick _ => true
  | _ => false

/-- Number of active recurring reset intervals. -/
def countResetTimers (s : MState) : Nat :=
  (s.timers.filter (fun t => isResetAct t.act)).length

/-! ## Concrete external worlds and events used by closed instances -/

/-- A demonstration external world whose parsers, on any input, yield a
fixed field set, mirroring a platform that parsed a well-formed body. -/
def worldDemo : World :=
  { b64Bytes := fun _ => []
    b64Text := fun _ => ""
    multipartFields := fun _ => .ok [("cf-turnstile-response", "mp-token")]
    urlGet := fun _ _ => some ("url-token")
    jsonParse := fun _ => .ok [("cf-turnstile-response", "json-token")] }

/-- The JSON body text submitting the empty string under key
`cf-turnstile-response` (written with escaped braces). -/
def jsonBody0 : String := "\x7b\"cf-turnstile-response\":\"\"\x7d"

/-- External world whose JSON parser parses exactly `jsonBody0` the way
`JSON.parse` does: to an object whose `cf-turnstile-response` field is
the empty string. -/
def worldJson0 : World :=
  { worldTrivial with
      jsonParse := fun s =>
        if s == jsonBody0 then .ok [("cf-turnstile-response", "")] else .error () }

/-- A JSON request event submitting the empty string as the
`cf-turnstile-response` field value. -/
def evJsonEmpty : Event :=
  mkEvent [("content-type", "application/json")] (some jsonBody0) false


/-! ## Helper lemmas -/

theorem clearTimer_cleanedUp (s : MState) (i : Nat) :
    (clearTimer s i).cleanedUp = s.cleanedUp := rfl

theorem truthy_none : truthy none = false := rfl

theorem truthy_some_empty : truthy (some ("")) = false := rfl

theorem truthy_some (s : String) : truthy (some s) = (s != "") := rfl

theorem clearResetIv_cleanedUp (s : MState) :
    (clearResetIv s).cleanedUp = s.cleanedUp := by
  cases h : s.resetIv <;> simp [clearResetIv, h, clearTimer]

theorem clearCheckIv_cleanedUp (s : MState) :
    (clearCheckIv s).cleanedUp = s.cleanedUp := by
  cases h : s.checkIv <;> simp [clearCheckIv, h, clearTimer]

/-! ## Verifier claims -/

/-- C4: for every token and secret that pass the falsy checks, the
result of `verifyTurnstile` is determined by the remote outcome: a
non-ok HTTP status or a parsed body with falsy `success` yield the
generic verification-failed message, a parsed body with truthy `success`
yields a success result with no error key, and an exception thrown by
the fetch or by response parsing yields the verification-error message.
The embedding is a total function, mirroring that `verifyTurnstile`
catches every exception and never throws. -/
theorem verify_remote_outcomes_c4 (token secretKey : String)
    (remoteIp : Option String) (status : Nat)
    (ht : token ≠ "") (hk : secretKey ≠ "") :
    (verifyTurnstile token secretKey remoteIp (.httpError status)).result
      = { success := false,
          error := some ("Security verification failed. Please try again.") }
    ∧ (verifyTurnstile token secretKey remoteIp (.parsed false)).result
      = { success := false,
          error := some ("Security verification failed. Please try again.") }
    ∧ (verifyTurnstile token secretKey remoteIp (.parsed true)).result
      = { success := true, error := none }
    ∧ (verifyTurnstile token secretKey remoteIp .fetchError).result
      = { success := false,
          error := some ("Security verification error. Please try again.") }
    ∧ (verifyTurnstile token secretKey remoteIp .jsonError).result
      = { success := false,
          error := some ("Security verification error. Please try again.") } := by
  refine ⟨?_, ?_, ?_, ?_, ?_⟩ <;> simp [verifyTurnstile, ht, hk]

/-- Witness for C4 at a concrete token, secret and HTTP status. -/
theorem verify_remote_outcomes_c4_witness :
    (verifyTurnstile ("tok") ("sec") none (.httpError 500)).result
      = { success := false,
          error := some ("Security verification failed. Please try again.") }
    ∧ (verifyTurnstile ("tok") ("sec") none (.parsed false)).result
      = { success := false,
          error := some ("Security verification failed. Please try again.") }
    ∧ (verifyTurnstile ("tok") ("sec") none (.parsed true)).result
      = { success := true, error := none }
    ∧ (verifyTurnstile ("tok") ("sec") none .fetchError).result
      = { success := false,
          error := some ("Security verification error. Please try again.") }
    ∧ (verifyTurnstile ("tok") ("sec") none .jsonError).result
      = { success := false,
          error := some ("Security verification error. Please try again.") } :=
  verify_remote_outcomes_c4 ("tok") ("sec") none 500 (by decide) (by decide)

/-- C5: the falsy-precondition checks of `verifyTurnstile` run in order:
a falsy secret yields the configuration-error result with no outbound
request, for every token (so the secret check wins even when both are
falsy); otherwise a falsy token yields the missing-token result with no
outbound request; and the two messages are distinct from each other and
from both generic failure messages. -/
theorem verify_preconditions_c5 (token secretKey : String)
    (remoteIp : Option String) (remote : RemoteOutcome)
    (hk : secretKey ≠ "") :
    verifyTurnstile token ("") remoteIp remote
      = { result := { success := false,
                      error := some ("Turnstile verification is not configured") },
          request := none }
    ∧ verifyTurnstile ("") secretKey remoteIp remote
      = { result := { success := false,
                      error := some ("Turnstile token is missing") },
          request := none }
    ∧ ("Turnstile verification is not configured" : String) ≠ "Turnstile token is missing"
    ∧ ("Turnstile verification is not configured" : String) ≠ "Security verification failed. Please try again."
    ∧ ("Turnstile verification is not configured" : String) ≠ "Security verification error. Please try again."
    ∧ ("Turnstile token is missing" : String) ≠ "Security verification failed. Please try again."
    ∧ ("Turnstile token is missing" : String) ≠ "Security verification error. Please try again." := by
  refine ⟨by simp [verifyTurnstile], by simp [verifyTurnstile, hk], ?_, ?_, ?_, ?_, ?_⟩ <;> decide

/-- Witness for C5 at a concrete token, secret and remote outcome. -/
theorem verify_preconditions_c5_witness :
    verifyTurnstile ("tok") ("") none .fetchError
      = { result := { success := false,
                      error := some ("Turnstile verification is not configured") },
          request := none }
    ∧ verifyTurnstile ("") ("sec") none .fetchError
      = { result := { success := false,
                      error := some ("Turnstile token is missing") },
          request := none }
    ∧ ("Turnstile verification is not configured" : String) ≠ "Turnstile token is missing"
    ∧ ("Turnstile verification is not configured" : String) ≠ "Security verification failed. Please try again."
    ∧ ("Turnstile verification is not configured" : String) ≠ "Security verification error. Please try again."
    ∧ ("Turnstile token is missing" : String) ≠ "Security verification failed. Please try again."
    ∧ ("Turnstile token is missing" : String) ≠ "Security verification error. Please try again." :=
  verify_preconditions_c5 ("tok") ("sec") none .fetchError (by decide)

/-- Counterexample to C8 as stated: with the empty string provided as
the `remoteIp` argument (a provided argument, distinct from `none`), the
outbound body contains no `remoteip` field, because the code guards the
append with the truthiness test `if (remoteIp)`. -/
theorem verify_remoteip_counterexample_c8 :
    (some ("") : Option String) ≠ none
    ∧ (verifyTurnstile ("tok") ("sec") (some ("")) (.parsed true)).request
      = some [("secret", "sec"), ("response", "tok")]
    ∧ hasKey (buildVerifyBody ("tok") ("sec") (some (""))) ("remoteip") = false := by
  refine ⟨by decide, rfl, by decide⟩

/-- C8 (amended): for every token and secret passing the falsy checks,
the issued request body is exactly `buildVerifyBody`, whose `secret` and
`response` fields are always present and whose `remoteip` field is
present exactly when the `remoteIp` argument is provided and truthy
(non-empty). -/
theorem verify_body_fields_c8 (token secretKey : String)
    (remoteIp : Option String) (remote : RemoteOutcome)
    (ht : token ≠ "") (hk : secretKey ≠ "") :
    (verifyTurnstile token secretKey remoteIp remote).request
      = some (buildVerifyBody token secretKey remoteIp)
    ∧ hasKey (buildVerifyBody token secretKey remoteIp) ("secret") = true
    ∧ hasKey (buildVerifyBody token secretKey remoteIp) ("response") = true
    ∧ (hasKey (buildVerifyBody token secretKey remoteIp) ("remoteip") = true
        ↔ truthy remoteIp = true) := by
  refine ⟨?_, ?_, ?_, ?_⟩
  · cases remote with
    | fetchError => simp [verifyTurnstile, ht, hk]
    | httpError status => simp [verifyTurnstile, ht, hk]
    | jsonError => simp [verifyTurnstile, ht, hk]
    | parsed ok => cases ok <;> simp [verifyTurnstile, ht, hk]
  · simp [hasKey, buildVerifyBody]
  · simp [hasKey, buildVerifyBody]
  · cases remoteIp with
    | none => simp [hasKey, buildVerifyBody, truthy]
    | some ip =>
        by_cases hip : ip = "" <;> simp [hasKey, buildVerifyBody, truthy, hip]

/-- Witness for C8 (amended) at a concrete token, secret and IP. -/
theorem verify_body_fields_c8_witness :
    (verifyTurnstile ("tok") ("sec") (some ("1.2.3.4")) (.parsed true)).request
      = some (buildVerifyBody ("tok") ("sec") (some ("1.2.3.4")))
    ∧ hasKey (buildVerifyBody ("tok") ("sec") (some ("1.2.3.4"))) ("secret") = true
    ∧ hasKey (buildVerifyBody ("tok") ("sec") (some ("1.2.3.4"))) ("response") = true
    ∧ (hasKey (buildVerifyBody ("tok") ("sec") (some ("1.2.3.4"))) ("remoteip") = true
        ↔ truthy (some ("1.2.3.4")) = true) :=
  verify_body_fields_c8 ("tok") ("sec") (some ("1.2.3.4")) (.parsed true)
    (by decide) (by decide)

theorem jsLookup_cons (a : String × String) (l : List (String × String))
    (k : String) :
    jsLookup (a :: l) k = if a.1 = k then some a.2 else jsLookup l k := by
  by_cases h : a.1 = k
  · simp [jsLookup, List.find?, h]
  · have hb : (a.1 == k) = false := beq_eq_false_iff_ne.mpr h
    simp [jsLookup, List.find?, hb, h]

theorem jsLookup_strip_token (hs : List (String × String)) :
    jsLookup (stripTokenHeaders hs) ("x-turnstile-token") = none
    ∧ jsLookup (stripTokenHeaders hs) ("X-Turnstile-Token") = none := by
  induction hs with
  | nil => exact ⟨rfl, rfl⟩
  | cons a rest ih =>
      by_cases h : a.1 = "x-turnstile-token" ∨ a.1 = "X-Turnstile-Token"
      · simpa [stripTokenHeaders, h] using ih
      · push_neg at h
        simp [stripTokenHeaders, h.1, h.2, jsLookup_cons, ih.1, ih.2,
          Ne.symm h.1, Ne.symm h.2]

theorem jsLookup_strip_other (hs : List (String × String)) (k : String)
    (h1 : k ≠ "x-turnstile-token") (h2 : k ≠ "X-Turnstile-Token") :
    jsLookup (stripTokenHeaders hs) k = jsLookup hs k := by
  induction hs with
  | nil => rfl
  | cons a rest ih =>
      by_cases h : a.1 = "x-turnstile-token" ∨ a.1 = "X-Turnstile-Token"
      · have hak : a.1 ≠ k := by
          rcases h with h | h <;> rw [h] <;> exact fun hh => by
            first
              | exact h1 hh.symm
              | exact h2 hh.symm
        simp [stripTokenHeaders, h, jsLookup_cons, hak, ih]
      · simp [stripTokenHeaders, h, jsLookup_cons, ih]

/-! ## Token extraction claims -/

/-- C3: the claim says an entirely absent headers object is tolerated
(treated as empty) with a `null` result; the code instead throws.  Line
80 defaults `event.headers || {}` into a local, but line 88 reads
`event.headers['content-type']` on the raw `event.headers`, so for every
event without a headers object the extraction rejects with a TypeError,
for any body and base64 flag and any external world. -/
theorem extract_absent_headers_throws_c3 (w : World) (body : Option String)
    (flag : Bool) :
    getTurnstileToken w { headers := none, body := body, isBase64Encoded := flag }
      = .error .typeError := rfl

/-- Counterexample to C7 as stated: a request whose token header uses a
casing other than the two literals the code checks.  The header list
contains a header named `x-turnstile-token` up to case, yet extraction
ignores it and returns `null` (there being no content type), instead of
the header value. -/
theorem header_casing_counterexample_c7 :
    (([("X-TURNSTILE-TOKEN", "header-token")] : List (String × String)).any
        (fun p => lowerAscii p.1 == "x-turnstile-token")) = true
    ∧ getTurnstileToken worldTrivial
        (mkEvent [("X-TURNSTILE-TOKEN", "header-token")] none false)
      = .ok none := by
  exact ⟨by decide, rfl⟩

/-- C7 (amended): a header named exactly `x-turnstile-token` or
`X-Turnstile-Token` whose value is truthy (non-empty) makes extraction
return that value immediately, for every body, base64 flag, content type
and external world — all body inspection is bypassed. -/
theorem header_short_circuit_c7 (w : World) (hs : List (String × String))
    (body : Option String) (flag : Bool) (v : String)
    (h : jsTruthyOr (jsLookup hs ("x-turnstile-token"))
        (jsLookup hs ("X-Turnstile-Token")) = some v)
    (hv : v ≠ "") :
    getTurnstileToken w (mkEvent hs body flag) = .ok (some v) := by
  simp [getTurnstileToken, mkEvent, h, truthy, hv]

/-- Witness for C7 (amended): the capitalized casing with a multipart
body present; the header wins without consulting the body. -/
theorem header_short_circuit_c7_witness :
    getTurnstileToken worldDemo
      (mkEvent [("X-Turnstile-Token", "header-token"),
        ("content-type", "multipart/form-data")] (some ("b")) false)
      = .ok (some ("header-token")) :=
  header_short_circuit_c7 worldDemo
    [("X-Turnstile-Token", "header-token"),
      ("content-type", "multipart/form-data")]
    (some ("b")) false ("header-token") (by decide) (by decide)

/-- C10: a present-but-empty `x-turnstile-token` header is falsy, so it
does not short-circuit: extraction behaves exactly as if the token
headers were absent, proceeding to content-type-based body inspection
(and hence still returning a token found in the body). -/
theorem empty_header_no_short_circuit_c10 (w : World)
    (hs : List (String × String)) (body : Option String) (flag : Bool)
    (h1 : jsLookup hs ("x-turnstile-token") = some (""))
    (h2 : truthy (jsLookup hs ("X-Turnstile-Token")) = false) :
    getTurnstileToken w (mkEvent hs body flag)
      = getTurnstileToken w (mkEvent (stripTokenHeaders hs) body flag) := by
  have hx := (jsLookup_strip_token hs).1
  have hX := (jsLookup_strip_token hs).2
  have hct1 : jsLookup (stripTokenHeaders hs) ("content-type")
      = jsLookup hs ("content-type") :=
    jsLookup_strip_other hs ("content-type") (by decide) (by decide)
  have hct2 : jsLookup (stripTokenHeaders hs) ("Content-Type")
      = jsLookup hs ("Content-Type") :=
    jsLookup_strip_other hs ("Content-Type") (by decide) (by decide)
  simp only [getTurnstileToken, mkEvent, Option.getD_some, h1, h2, hx, hX,
    hct1, hct2, jsTruthyOr, truthy_none, truthy_some_empty, Bool.false_eq_true,
    if_false, ite_false]
  have hbb : getBodyBuffer w { headers := some hs, body := body, isBase64Encoded := flag } = getBodyBuffer w { headers := some (stripTokenHeaders hs), body := body, isBase64Encoded := flag } := rfl
  have htb : getTextBody w { headers := some hs, body := body, isBase64Encoded := flag } = getTextBody w { headers := some (stripTokenHeaders hs), body := body, isBase64Encoded := flag } := rfl
  rw [hbb, htb]

/-- Witness for C10 at a concrete event: an empty token header plus a
JSON body, compared against the same event with the header stripped. -/
theorem empty_header_no_short_circuit_c10_witness :
    getTurnstileToken worldDemo
      (mkEvent [("x-turnstile-token", ""), ("content-type", "application/json")]
        (some ("b")) false)
      = getTurnstileToken worldDemo
        (mkEvent (stripTokenHeaders
            [("x-turnstile-token", ""), ("content-type", "application/json")])
          (some ("b")) false) :=
  empty_header_no_short_circuit_c10 worldDemo
    [("x-turnstile-token", ""), ("content-type", "application/json")]
    (some ("b")) false (by decide) (by decide)

/-- Counterexample to C6 as stated: a JSON body submitting the empty
string as the `cf-turnstile-response` field value.  The platform JSON
parser yields the field with value `""` (first conjunct), yet extraction
returns `null` instead of the exact submitted value, because the JSON
branch applies the truthiness chain
`payload['cf-turnstile-response'] || payload.cfTurnstileResponse || null`. -/
theorem extraction_empty_json_counterexample_c6 :
    worldJson0.jsonParse (getTextBody worldJson0 evJsonEmpty)
      = .ok [("cf-turnstile-response", "")]
    ∧ getTurnstileToken worldJson0 evJsonEmpty = .ok none := by
  exact ⟨rfl, rfl⟩

/-- C6 (amended): with no truthy token header, extraction dispatches on
the content type in source order and returns, for multipart, the exact
value of the last `cf-turnstile-response` field the multipart parser
yields; for URL-encoded bodies, exactly what the URL parameter parser
yields for `cf-turnstile-response`; for JSON, the exact field value
under `cf-turnstile-response`, else under `cfTurnstileResponse`, but
only when that value is truthy — a falsy (empty) value yields `null` —
and a JSON parse failure yields `null`; an unsupported or missing
content type yields `null`; and a missing body behaves as the empty
text body / empty byte buffer. -/
theorem extraction_c6 (w : World) (hs : List (String × String))
    (body : Option String) (flag : Bool)
    (fields payload : List (String × String)) (v ct : String)
    (hHdr : truthy (jsTruthyOr (jsLookup hs ("x-turnstile-token"))
        (jsLookup hs ("X-Turnstile-Token"))) = false)
    (hct : jsStrOrEmpty (jsLookup hs ("content-type"))
        (jsLookup hs ("Content-Type")) = ct) :
    (strIncludes ct ("multipart/form-data") = true →
      w.multipartFields (getBodyBuffer w (mkEvent hs body flag)) = .ok fields →
      getTurnstileToken w (mkEvent hs body flag)
        = .ok (lastField fields ("cf-turnstile-response")))
    ∧ (strIncludes ct ("multipart/form-data") = false →
      strIncludes ct ("application/x-www-form-urlencoded") = true →
      getTurnstileToken w (mkEvent hs body flag)
        = .ok (w.urlGet (getTextBody w (mkEvent hs body flag))
            ("cf-turnstile-response")))
    ∧ (strIncludes ct ("multipart/form-data") = false →
      strIncludes ct ("application/x-www-form-urlencoded") = false →
      strIncludes ct ("application/json") = true →
      w.jsonParse (getTextBody w (mkEvent hs body flag)) = .ok payload →
      jsLookup payload ("cf-turnstile-response") = some v → v ≠ "" →
      getTurnstileToken w (mkEvent hs body flag) = .ok (some v))
    ∧ (strIncludes ct ("multipart/form-data") = false →
      strIncludes ct ("application/x-www-form-urlencoded") = false →
      strIncludes ct ("application/json") = true →
      w.jsonParse (getTextBody w (mkEvent hs body flag)) = .ok payload →
      truthy (jsLookup payload ("cf-turnstile-response")) = false →
      jsLookup payload ("cfTurnstileResponse") = some v → v ≠ "" →
      getTurnstileToken w (mkEvent hs body flag) = .ok (some v))
    ∧ (strIncludes ct ("multipart/form-data") = false →
      strIncludes ct ("application/x-www-form-urlencoded") = false →
      strIncludes ct ("application/json") = true →
      w.jsonParse (getTextBody w (mkEvent hs body flag)) = .ok payload →
      truthy (jsLookup payload ("cf-turnstile-response")) = false →
      truthy (jsLookup payload ("cfTurnstileResponse")) = false →
      getTurnstileToken w (mkEvent hs body flag) = .ok none)
    ∧ (strIncludes ct ("multipart/form-data") = false →
      strIncludes ct ("application/x-www-form-urlencoded") = false →
      strIncludes ct ("application/json") = true →
      w.jsonParse (getTextBody w (mkEvent hs body flag)) = .error () →
      getTurnstileToken w (mkEvent hs body flag) = .ok none)
    ∧ (strIncludes ct ("multipart/form-data") = false →
      strIncludes ct ("application/x-www-form-urlencoded") = false →
      strIncludes ct ("application/json") = false →
      getTurnstileToken w (mkEvent hs body flag) = .ok none)
    ∧ (body = none →
      getTextBody w (mkEvent hs body flag) = ""
        ∧ getBodyBuffer w (mkEvent hs body flag) = []) := by
  refine ⟨?_, ?_, ?_, ?_, ?_, ?_, ?_, ?_⟩
  · intro hmp hof
    simp only [mkEvent] at hof
    simp [getTurnstileToken, mkEvent, hHdr, hct, hmp, hof]
  · intro hmp hurl
    simp [getTurnstileToken, mkEvent, hHdr, hct, hmp, hurl]
  · intro hmp hurl hjs hp hv1 hv
    simp only [mkEvent] at hp
    simp [getTurnstileToken, mkEvent, hHdr, hct, hmp, hurl, hjs, hp, hv1]
    simp [jsTruthyOr, truthy_some, hv]
  · intro hmp hurl hjs hp hv0 hv2 hv
    simp only [mkEvent] at hp
    simp [getTurnstileToken, mkEvent, hHdr, hct, hmp, hurl, hjs, hp, hv2]
    simp [jsTruthyOr, hv0, truthy_some, hv]
  · intro hmp hurl hjs hp hv0 hv2
    simp only [mkEvent] at hp
    simp [getTurnstileToken, mkEvent, hHdr, hct, hmp, hurl, hjs, hp]
    simp [jsTruthyOr, hv0, hv2]
  · intro hmp hurl hjs hp
    simp only [mkEvent] at hp
    simp [getTurnstileToken, mkEvent, hHdr, hct, hmp, hurl, hjs, hp]
  · intro hmp hurl hjs
    simp [getTurnstileToken, mkEvent, hHdr, hct, hmp, hurl, hjs]
  · intro hb
    subst hb
    exact ⟨rfl, rfl⟩

/-- Witness for C6 (amended): one concrete event per content-type
branch, under the demonstration world. -/
theorem extraction_c6_witness :
    getTurnstileToken worldDemo
      (mkEvent [("content-type", "multipart/form-data")] (some ("b")) false)
      = .ok (some ("mp-token"))
    ∧ getTurnstileToken worldDemo
      (mkEvent [("content-type", "application/x-www-form-urlencoded")]
        (some ("b")) false)
      = .ok (some ("url-token"))
    ∧ getTurnstileToken worldDemo
      (mkEvent [("content-type", "application/json")] (some ("b")) false)
      = .ok (some ("json-token"))
    ∧ getTurnstileToken worldDemo
      (mkEvent [("content-type", "text/plain")] (some ("b")) false)
      = .ok none := by
  refine ⟨?_, ?_, ?_, ?_⟩
  · exact (extraction_c6 worldDemo [("content-type", "multipart/form-data")]
      (some ("b")) false [("cf-turnstile-response", "mp-token")] [] ("")
      ("multipart/form-data") (by decide) (by decide)).1 (by decide) rfl
  · exact ((extraction_c6 worldDemo
      [("content-type", "application/x-www-form-urlencoded")]
      (some ("b")) false [] [] ("")
      ("application/x-www-form-urlencoded") (by decide) (by decide)).2.1
      (by decide) (by decide))
  · exact ((extraction_c6 worldDemo [("content-type", "application/json")]
      (some ("b")) false [] [("cf-turnstile-response", "json-token")]
      ("json-token") ("application/json") (by decide) (by decide)).2.2.1
      (by decide) (by decide) (by decide) rfl (by decide) (by decide))
  · exact ((extraction_c6 worldDemo [("content-type", "text/plain")]
      (some ("b")) false [] [] ("") ("text/plain")
      (by decide) (by decide)).2.2.2.2.2.2.1
      (by decide) (by decide) (by decide))

/-! ## Refresh controller claims -/

/-- C9: the teardown function returned by `setupAutoRefresh` is
idempotent: applied a second (or any later) time to the resulting state
it is the identity, producing no error (it is a total function) and no
additional effect on the session timers or flags, for every machine
state — reachable or not. -/
theorem cleanup_idempotent_c9 (s : MState) : cleanup (cleanup s) = cleanup s := by
  by_cases h : s.cleanedUp = true
  · have e : cleanup s = s := by simp [cleanup, h]
    rw [e, e]
  · have h2 : (cleanup s).cleanedUp = true := by
      have e : cleanup s = clearCheckIv (clearResetIv { s with cleanedUp := true }) := by
        simp [cleanup, h]
      rw [e, clearCheckIv_cleanedUp, clearResetIv_cleanedUp]
    have e2 : cleanup (cleanup s)
        = if (cleanup s).cleanedUp = true then cleanup s
          else clearCheckIv (clearResetIv { cleanup s with cleanedUp := true }) := rfl
    rw [e2, if_pos h2]

/-- C1: the claim says teardown stops all future activity, and in
particular teardown before the widget id is ever observed means zero
reset calls ever.  The code violates this: `cleanup` clears only the two
tracked interval handles and does not cancel the `checkScript` interval
or the load listener, and `setupReset` never consults `isCleanedUp`.
Trace (session started with the script unavailable, realizable as e.g.
teardown at 50 ms, script load at 150 ms, script-poll tick at 200 ms,
widget id set at 250 ms, widget-poll tick at 300 ms, reset tick at
300 ms + refreshInterval): teardown happens first — before any widget id
exists (first two conjuncts) — yet the reset operation is still invoked
afterwards (third conjunct). -/
theorem reset_after_teardown_c1 :
    (run (setup false true) [Ev.teardown]).cleanedUp = true
    ∧ (run (setup false true) [Ev.teardown]).widgetAttr = none
    ∧ (run (setup false true)
        [Ev.teardown, Ev.turnstileLoads, Ev.fire 0, Ev.widgetIdSet ("w"),
          Ev.fire 2, Ev.fire 4]).resetCount = 1 := by
  exact ⟨rfl, rfl, rfl⟩

/-- C2: the claim says at most one initialization-poll timer and at most
one reset timer are ever active, and the poll timer stops before or when
the reset timer starts, even when the rendering API becomes available
via both the periodic script check and the page-load signal.  The code
violates this in exactly that dual-trigger scenario: the script check
fires `setupReset`, then the load handler fires `setupReset` again,
which overwrites `checkWidgetInterval` without clearing the first poll
interval.  Trace (realizable as: script load at 50 ms, script-poll tick
at 100 ms, load event at 150 ms, delayed setup at 650 ms, widget id at
690 ms, first-poll ticks at 700 ms and 800 ms — the second poll would
first tick at 750 ms but is cleared at 700 ms): after the delayed setup
two poll intervals are active (first conjunct); the leaked first poll
then creates a reset interval at each tick, so two reset intervals are
active (second conjunct) while the leaked poll interval itself is still
running alongside them (third conjunct). -/
theorem duplicate_timers_c2 :
    countWidgetPolls (run (setup false true)
        [Ev.turnstileLoads, Ev.fire 0, Ev.load, Ev.fire 4]) = 2
    ∧ countResetTimers (run (setup false true)
        [Ev.turnstileLoads, Ev.fire 0, Ev.load, Ev.fire 4,
          Ev.widgetIdSet ("w"), Ev.fire 2, Ev.fire 2]) = 2
    ∧ countWidgetPolls (run (setup false true)
        [Ev.turnstileLoads, Ev.fire 0, Ev.load, Ev.fire 4,
          Ev.widgetIdSet ("w"), Ev.fire 2, Ev.fire 2]) = 1 := by
  exact ⟨rfl, rfl, rfl⟩
